import Mathlib

/-!
Verification of the audio delivery engine of `src/audio_player/audioPlayer.py`.

The Python class `AudioPlayer` is embedded shallowly:

* `PlayerState` holds the fields of the `AudioPlayer` object
  (`play_queue`, `abort_flag`, `paused`, `is_speaking`, `terminate`,
  `currently_playing`, `queued_files`, `audio_dir`, `enabled`).
* `play_audio_blocking` models `AudioPlayer._play_audio_blocking`: its
  environment `SinkEnv` records which of the three resource acquisitions
  (wave file, PyAudio device, output stream) succeed and, for each audio
  chunk, whether the abort flag is observed and whether the chunk write
  succeeds.  The function is total: the Python method catches every
  `Exception` internally, so no exception reaches the caller.
* `runDelete` models the deletion retry loop of `AudioPlayer.run`
  (`for attempt in range(3)` with `os.remove`), with the outcome of each
  `os.remove` call supplied as a `DelResult`.  Sleep durations are recorded
  in tenths of a second (`time.sleep(0.1)` is `1`, `asyncio.sleep(0.5)` is `5`).
* `runIteration` models one execution of the body of the `while not
  self.terminate` loop of `AudioPlayer.run`; `runLoop` iterates it, exiting
  when `terminate` is set.  Per-iteration nondeterminism (directory listing,
  file existence, sink events, delete outcomes, a concurrent `stop()` call)
  is supplied by an `IterInput`.
* The `AudioPlayer.API` inner class is embedded as `APICall` / `apiStep`
  with one constructor per public method found in the source.
-/

namespace AudioPlayer

/-- Result of one `os.remove` call inside the deletion retry loop:
success, a `PermissionError`, or any other exception. -/
inductive DelResult
  | ok
  | permErr
  | otherErr
deriving DecidableEq

/-- Summary of the deletion retry loop: whether the file was deleted, how many
`os.remove` attempts were made, and the sequence of sleeps (tenths of a
second) performed by the loop, in order. -/
structure DelSummary where
  deleted : Bool
  attempts : Nat
  sleeps : List Nat
deriving DecidableEq

/-- The body of `for attempt in range(3)` in `AudioPlayer.run`: each attempt
sleeps 0.1 s, then calls `os.remove` (outcome `res.getD attempt .ok`).
Success breaks with `deleted = True`; a `PermissionError` sleeps 0.5 s and
retries while `attempt < 2`, otherwise logs and falls out; any other
exception logs and breaks.  `rem` counts the remaining range entries. -/
def delete_go (res : List DelResult) : Nat → Nat → DelSummary
  | _, 0 => { deleted := false, attempts := 0, sleeps := [] }
  | attempt, rem + 1 =>
    match res.getD attempt .ok with
    | .ok => { deleted := true, attempts := 1, sleeps := [1] }
    | .permErr =>
      if attempt < 2 then
        let s := delete_go res (attempt + 1) rem
        { deleted := s.deleted, attempts := s.attempts + 1, sleeps := 1 :: 5 :: s.sleeps }
      else
        { deleted := false, attempts := 1, sleeps := [1] }
    | .otherErr => { deleted := false, attempts := 1, sleeps := [1] }

/-- The deletion retry loop of `AudioPlayer.run`, started at attempt 0 with
the three entries of `range(3)` remaining. -/
def runDelete (res : List DelResult) : DelSummary :=
  delete_go res 0 3

/-- Outcome of one playback session of `_play_audio_blocking`: the chunk loop
ran to exhaustion, the abort flag ended it early, or an exception was caught
(during open or streaming). -/
inductive SinkOutcome
  | completed
  | aborted
  | errored
deriving DecidableEq

/-- Resource-release steps of the `finally` block of `_play_audio_blocking`:
`stream.stop_stream(); stream.close()`, `p.terminate()`, `wf.close()`. -/
inductive CleanupAct
  | closeStream
  | terminateDevice
  | closeFile
deriving DecidableEq

/-- Environment of one playback session: whether `wave.open`, the
`pyaudio.PyAudio()` construction and `p.open(...)` succeed, and for each
chunk of the file the abort flag observed before writing it and whether
`stream.write` succeeds. -/
structure SinkEnv where
  open_file_ok : Bool
  device_init_ok : Bool
  open_stream_ok : Bool
  chunk_obs : List (Bool × Bool)
deriving DecidableEq

/-- Result of `_play_audio_blocking`: the outcome, the cleanup actions of the
`finally` block in the order executed, and whether the method reset
`self.abort_flag` to `False` (it does so exactly on the abort path). -/
structure SinkResult where
  outcome : SinkOutcome
  cleanup : List CleanupAct
  abort_cleared : Bool
deriving DecidableEq

/-- The chunk-writing loop of `_play_audio_blocking`: for each chunk, if the
abort flag is observed (directly or while paused) the loop breaks as an
abort; otherwise the chunk is written, a failing write raising an exception
caught as an error. An exhausted file completes normally. -/
def streamChunks : List (Bool × Bool) → SinkOutcome
  | [] => .completed
  | obs :: rest =>
    if obs.1 then .aborted
    else if obs.2 then streamChunks rest
    else .errored

/-- `AudioPlayer._play_audio_blocking`.  All exceptions are caught inside the
method (`except Exception`), so it returns a result on every input; the
`finally` block releases exactly the resources that were acquired, in the
order stream, device, file. -/
def play_audio_blocking (env : SinkEnv) : SinkResult :=
  if !env.open_file_ok then
    { outcome := .errored, cleanup := [], abort_cleared := false }
  else if !env.device_init_ok then
    { outcome := .errored, cleanup := [.closeFile], abort_cleared := false }
  else if !env.open_stream_ok then
    { outcome := .errored, cleanup := [.terminateDevice, .closeFile], abort_cleared := false }
  else
    let oc := streamChunks env.chunk_obs
    { outcome := oc,
      cleanup := [.closeStream, .terminateDevice, .closeFile],
      abort_cleared := oc == .aborted }

/-- The Python `set` operation `queued_files.add`, on the list embedding of the
set. -/
def set_add (l : List String) (p : String) : List String :=
  if l.contains p then l else l ++ [p]

/-- The Python `set` operation `queued_files.discard`, on the list embedding of
the set. -/
def set_discard (l : List String) (p : String) : List String :=
  l.filter (fun q => !(q == p))

/-- State of an `AudioPlayer` object: its mutable fields. -/
structure PlayerState where
  enabled : Bool
  play_queue : List String
  abort_flag : Bool
  paused : Bool
  is_speaking : Bool
  terminate : Bool
  currently_playing : Option String
  queued_files : List String
  audio_dir : String
deriving DecidableEq

/-- `AudioPlayer.__init__`: empty queue, all flags down, nothing playing,
empty registry. -/
def initState (enabled : Bool) (dir : String) : PlayerState :=
  { enabled := enabled
    play_queue := []
    abort_flag := false
    paused := false
    is_speaking := false
    terminate := false
    currently_playing := none
    queued_files := []
    audio_dir := dir }

/-- `file.lower().endswith(".wav")`, computed on the character list of the
name so that it evaluates by kernel reduction. -/
def hasWavExt (s : String) : Bool :=
  ".wav".data.isSuffixOf (s.data.map Char.toLower)

/-- `os.path.join(dir, f)` (POSIX). -/
def joinPath (dir f : String) : String :=
  dir ++ "/" ++ f

/-- `AudioPlayer._scan_for_new_audio_files`: list the directory, keep `.wav`
entries, join with the audio directory, and keep paths neither in
`queued_files` nor equal to `currently_playing`. -/
def scan_for_new_audio_files (st : PlayerState) (dirList : List String) : List String :=
  ((dirList.filter hasWavExt).map (joinPath st.audio_dir)).filter
    (fun p => !(st.queued_files.contains p) && !(st.currently_playing == some p))

/-- `os.path.isabs` (POSIX): the path begins with a separator. -/
def isAbsPath (s : String) : Bool :=
  s.data.head? == some '/'

/-- The `API.play_audio` name resolution: a bare filename is joined with the
audio directory. -/
def resolvePath (st : PlayerState) (file_path : String) : String :=
  if isAbsPath file_path then file_path else joinPath st.audio_dir file_path

/-- `AudioPlayer.API.play_audio`: resolve the name, then enqueue it if the
file exists, otherwise log and do nothing. -/
def play_audio (st : PlayerState) (existing : List String) (file_path : String) : PlayerState :=
  let fp := resolvePath st file_path
  if existing.contains fp then { st with play_queue := st.play_queue ++ [fp] } else st

/-- `AudioPlayer.API.pause_audio`. -/
def pause_audio (st : PlayerState) : PlayerState :=
  { st with paused := true }

/-- `AudioPlayer.API.resume_audio`. -/
def resume_audio (st : PlayerState) : PlayerState :=
  { st with paused := false }

/-- `AudioPlayer.API.stop_playing`. -/
def stop_playing (st : PlayerState) : PlayerState :=
  { st with abort_flag := true }

/-- `AudioPlayer.stop`. -/
def stop (st : PlayerState) : PlayerState :=
  { st with terminate := true }

/-- `AudioPlayer.API.get_audio_list`: the `.wav` names in the directory. -/
def get_audio_list (dirList : List String) : List String :=
  dirList.filter hasWavExt

/-- The public methods of the `AudioPlayer.API` inner class, one constructor
per method in the source. -/
inductive APICall
  | getAudioList
  | playAudio (file_path : String)
  | pauseAudio
  | resumeAudio
  | stopPlaying
deriving DecidableEq

/-- Effect of one `AudioPlayer.API` method call on the player state
(`get_audio_list` is a pure query). -/
def apiStep (st : PlayerState) (existing : List String) : APICall → PlayerState
  | .getAudioList => st
  | .playAudio p => play_audio st existing p
  | .pauseAudio => pause_audio st
  | .resumeAudio => resume_audio st
  | .stopPlaying => stop_playing st

/-- Observable actions of one loop iteration. -/
inductive Action
  | enqueueDetected (p : String)
  | play (p : String)
  | deleteAttempt (p : String)
  | deleted (p : String)
  | dropMissing (p : String)
deriving DecidableEq

/-- Nondeterministic inputs of one loop iteration: whether the 1 s scan
interval elapsed and what `os.listdir` returns, which files exist at the
dequeue check, the playback session's environment, the outcomes of the
`os.remove` attempts, and whether `stop()` is called during the iteration. -/
structure IterInput where
  do_scan : Bool
  dir_list : List String
  existing : List String
  sink_env : SinkEnv
  del_results : List DelResult
  stop_requested : Bool
deriving DecidableEq

/-- The scan block of `AudioPlayer.run`: when the interval elapsed, every new
file is put on `play_queue` and added to `queued_files`. -/
def scanStep (st : PlayerState) (inp : IterInput) : PlayerState × List Action :=
  if inp.do_scan then
    let new_files := scan_for_new_audio_files st inp.dir_list
    ({ st with
        play_queue := st.play_queue ++ new_files,
        queued_files := new_files.foldl set_add st.queued_files },
      new_files.map Action.enqueueDetected)
  else (st, [])

/-- The playback-and-delete block of `AudioPlayer.run` for a dequeued,
existing path `p`: mark speaking, run `_play_audio_blocking` in a worker
thread (it never raises, so the `except` branch of `run` is not taken),
run the deletion retry loop, discard `p` from `queued_files`, and reset
`is_speaking` / `currently_playing`. -/
def playDeleteStep (st : PlayerState) (inp : IterInput) (p : String) :
    PlayerState × List Action :=
  let st1 := { st with is_speaking := true, currently_playing := some p }
  let sr := play_audio_blocking inp.sink_env
  let st2 := { st1 with abort_flag := if sr.abort_cleared then false else st1.abort_flag }
  let ds := runDelete inp.del_results
  let delActs :=
    List.replicate ds.attempts (Action.deleteAttempt p) ++
      (if ds.deleted then [Action.deleted p] else [])
  let st3 := { st2 with queued_files := set_discard st2.queued_files p }
  let st4 := { st3 with is_speaking := false, currently_playing := none }
  (st4, Action.play p :: delActs)

/-- The statement `if not self.is_speaking: self.abort_flag = False` of
`AudioPlayer.run`. -/
def abortResetStep (st : PlayerState) : PlayerState :=
  if !st.is_speaking then { st with abort_flag := false } else st

/-- One execution of the body of the `while not self.terminate` loop of
`AudioPlayer.run`, without the effect of a concurrent `stop()`:
disabled players just sleep; otherwise scan, reset `abort_flag` when not
speaking, and if the queue is non-empty pop one path, dropping it if the
file is gone and playing then deleting it otherwise. -/
def iterBody (st : PlayerState) (inp : IterInput) : PlayerState × List Action :=
  if !st.enabled then (st, [])
  else
    let sa := scanStep st inp
    let st2 := abortResetStep sa.1
    match st2.play_queue with
    | [] => (st2, sa.2)
    | p :: rest =>
      let st3 := { st2 with play_queue := rest }
      if inp.existing.contains p then
        let pd := playDeleteStep st3 inp p
        (pd.1, sa.2 ++ pd.2)
      else
        ({ st3 with queued_files := set_discard st3.queued_files p },
          sa.2 ++ [Action.dropMissing p])

/-- One loop iteration of `AudioPlayer.run`, including a concurrent `stop()`
call when the input records one. -/
def runIteration (st : PlayerState) (inp : IterInput) : PlayerState × List Action :=
  let b := iterBody st inp
  (if inp.stop_requested then stop b.1 else b.1, b.2)

/-- The path popped from the queue by this iteration, if any: the head of the
post-scan queue of an enabled player. -/
def dequeuedPath (st : PlayerState) (inp : IterInput) : Option String :=
  if !st.enabled then none
  else ((scanStep st inp).1.play_queue).head?

/-- The `while not self.terminate` loop of `AudioPlayer.run`: iterate
`runIteration` over the inputs, exiting exactly when `terminate` is
observed at the top of the loop.  Returns the final state and the per-
iteration action traces of the iterations that ran. -/
def runLoop : PlayerState → List IterInput → PlayerState × List (List Action)
  | st, [] => (st, [])
  | st, inp :: rest =>
    if st.terminate then (st, [])
    else
      let r := runIteration st inp
      let rl := runLoop r.1 rest
      (rl.1, r.2 :: rl.2)

/-! ### Basic lemmas about the embedded operations -/

theorem set_discard_not_mem (l : List String) (p : String) : p ∉ set_discard l p := by
  simp [set_discard]

theorem set_discard_subset (l : List String) (p q : String) :
    q ∈ set_discard l p → q ∈ l := by
  intro h
  exact (List.mem_filter.mp h).1

@[simp] theorem scanStep_enabled (st : PlayerState) (inp : IterInput) :
    (scanStep st inp).1.enabled = st.enabled := by
  unfold scanStep; split <;> rfl

@[simp] theorem scanStep_abort_flag (st : PlayerState) (inp : IterInput) :
    (scanStep st inp).1.abort_flag = st.abort_flag := by
  unfold scanStep; split <;> rfl

@[simp] theorem scanStep_paused (st : PlayerState) (inp : IterInput) :
    (scanStep st inp).1.paused = st.paused := by
  unfold scanStep; split <;> rfl

@[simp] theorem scanStep_is_speaking (st : PlayerState) (inp : IterInput) :
    (scanStep st inp).1.is_speaking = st.is_speaking := by
  unfold scanStep; split <;> rfl

@[simp] theorem scanStep_terminate_eq (st : PlayerState) (inp : IterInput) :
    (scanStep st inp).1.terminate = st.terminate := by
  unfold scanStep; split <;> rfl

@[simp] theorem scanStep_currently_playing (st : PlayerState) (inp : IterInput) :
    (scanStep st inp).1.currently_playing = st.currently_playing := by
  unfold scanStep; split <;> rfl

@[simp] theorem scanStep_audio_dir (st : PlayerState) (inp : IterInput) :
    (scanStep st inp).1.audio_dir = st.audio_dir := by
  unfold scanStep; split <;> rfl

theorem scanStep_noscan (st : PlayerState) (inp : IterInput) (h : inp.do_scan = false) :
    scanStep st inp = (st, []) := by
  unfold scanStep; rw [h]; rfl

@[simp] theorem abortResetStep_enabled (st : PlayerState) :
    (abortResetStep st).enabled = st.enabled := by
  unfold abortResetStep; split <;> rfl

@[simp] theorem abortResetStep_play_queue (st : PlayerState) :
    (abortResetStep st).play_queue = st.play_queue := by
  unfold abortResetStep; split <;> rfl

@[simp] theorem abortResetStep_paused (st : PlayerState) :
    (abortResetStep st).paused = st.paused := by
  unfold abortResetStep; split <;> rfl

@[simp] theorem abortResetStep_is_speaking (st : PlayerState) :
    (abortResetStep st).is_speaking = st.is_speaking := by
  unfold abortResetStep; split <;> rfl

@[simp] theorem abortResetStep_terminate_eq (st : PlayerState) :
    (abortResetStep st).terminate = st.terminate := by
  unfold abortResetStep; split <;> rfl

@[simp] theorem abortResetStep_currently_playing (st : PlayerState) :
    (abortResetStep st).currently_playing = st.currently_playing := by
  unfold abortResetStep; split <;> rfl

@[simp] theorem abortResetStep_queued_files (st : PlayerState) :
    (abortResetStep st).queued_files = st.queued_files := by
  unfold abortResetStep; split <;> rfl

@[simp] theorem abortResetStep_audio_dir (st : PlayerState) :
    (abortResetStep st).audio_dir = st.audio_dir := by
  unfold abortResetStep; split <;> rfl

theorem abortResetStep_abort_flag_of_not_speaking (st : PlayerState)
    (h : st.is_speaking = false) : (abortResetStep st).abort_flag = false := by
  unfold abortResetStep; rw [h]; rfl

@[simp] theorem playDeleteStep_enabled (st : PlayerState) (inp : IterInput) (p : String) :
    (playDeleteStep st inp p).1.enabled = st.enabled := rfl

@[simp] theorem playDeleteStep_play_queue (st : PlayerState) (inp : IterInput) (p : String) :
    (playDeleteStep st inp p).1.play_queue = st.play_queue := rfl

@[simp] theorem playDeleteStep_paused (st : PlayerState) (inp : IterInput) (p : String) :
    (playDeleteStep st inp p).1.paused = st.paused := rfl

@[simp] theorem playDeleteStep_is_speaking (st : PlayerState) (inp : IterInput) (p : String) :
    (playDeleteStep st inp p).1.is_speaking = false := rfl

@[simp] theorem playDeleteStep_terminate_eq (st : PlayerState) (inp : IterInput) (p : String) :
    (playDeleteStep st inp p).1.terminate = st.terminate := rfl

@[simp] theorem playDeleteStep_currently_playing (st : PlayerState) (inp : IterInput)
    (p : String) : (playDeleteStep st inp p).1.currently_playing = none := rfl

@[simp] theorem playDeleteStep_queued_files (st : PlayerState) (inp : IterInput) (p : String) :
    (playDeleteStep st inp p).1.queued_files = set_discard st.queued_files p := rfl

theorem playDeleteStep_abort_flag (st : PlayerState) (inp : IterInput) (p : String) :
    (playDeleteStep st inp p).1.abort_flag =
      if (play_audio_blocking inp.sink_env).abort_cleared then false else st.abort_flag := rfl

theorem playDeleteStep_actions (st : PlayerState) (inp : IterInput) (p : String) :
    (playDeleteStep st inp p).2 =
      Action.play p ::
        (List.replicate (runDelete inp.del_results).attempts (Action.deleteAttempt p) ++
          if (runDelete inp.del_results).deleted then [Action.deleted p] else []) := rfl

@[simp] theorem stop_terminate_eq (st : PlayerState) : (stop st).terminate = true := rfl

@[simp] theorem stop_paused (st : PlayerState) : (stop st).paused = st.paused := rfl

@[simp] theorem stop_abort_flag (st : PlayerState) : (stop st).abort_flag = st.abort_flag := rfl

@[simp] theorem stop_currently_playing (st : PlayerState) :
    (stop st).currently_playing = st.currently_playing := rfl

@[simp] theorem stop_queued_files (st : PlayerState) :
    (stop st).queued_files = st.queued_files := rfl

@[simp] theorem stop_play_queue (st : PlayerState) :
    (stop st).play_queue = st.play_queue := rfl

theorem runIteration_fst (st : PlayerState) (inp : IterInput) :
    (runIteration st inp).1 =
      if inp.stop_requested then stop (iterBody st inp).1 else (iterBody st inp).1 := rfl

theorem runIteration_snd (st : PlayerState) (inp : IterInput) :
    (runIteration st inp).2 = (iterBody st inp).2 := rfl

/-! ### Per-iteration lemmas -/

theorem iterBody_paused (st : PlayerState) (inp : IterInput) :
    (iterBody st inp).1.paused = st.paused := by
  simp only [iterBody]
  split
  · rfl
  · split
    · simp
    · split <;> simp

theorem iterBody_terminate_eq (st : PlayerState) (inp : IterInput) :
    (iterBody st inp).1.terminate = st.terminate := by
  simp only [iterBody]
  split
  · rfl
  · split
    · simp
    · split <;> simp

theorem iterBody_current_none (st : PlayerState) (inp : IterInput)
    (h : st.currently_playing = none) : (iterBody st inp).1.currently_playing = none := by
  simp only [iterBody]
  split
  · exact h
  · split
    · simp [h]
    · split <;> simp [h]

theorem iterBody_abort_false (st : PlayerState) (inp : IterInput)
    (he : st.enabled = true) (hs : st.is_speaking = false) :
    (iterBody st inp).1.abort_flag = false := by
  have hs2 : ((scanStep st inp).1).is_speaking = false := by simp [hs]
  have har : (abortResetStep (scanStep st inp).1).abort_flag = false :=
    abortResetStep_abort_flag_of_not_speaking _ hs2
  simp only [iterBody]
  split
  · rw [he] at *; simp_all
  · split
    · exact har
    · split
      · rw [playDeleteStep_abort_flag]
        simp [har]
      · exact har

theorem iterBody_dequeued_not_mem (st : PlayerState) (inp : IterInput) (p : String)
    (h : dequeuedPath st inp = some p) : p ∉ (iterBody st inp).1.queued_files := by
  unfold dequeuedPath at h
  by_cases he : st.enabled = true
  · rw [he] at h
    simp only [Bool.not_true, Bool.false_eq_true, if_false] at h
    simp only [iterBody, he, Bool.not_true, Bool.false_eq_true, if_false]
    rw [abortResetStep_play_queue]
    cases hq : (scanStep st inp).1.play_queue with
    | nil =>
      rw [hq] at h
      simp at h
    | cons q rest =>
      have hqp : q = p := by
        rw [hq] at h
        simpa using h
      subst hqp
      by_cases hex : inp.existing.contains q = true
      · simp only [hex, if_true, playDeleteStep_queued_files]
        exact set_discard_not_mem _ q
      · simp only [hex, if_false]
        exact set_discard_not_mem _ q
  · simp only [Bool.not_eq_true] at he
    rw [he] at h
    simp at h

theorem iterBody_actions_play (st : PlayerState) (inp : IterInput) (p : String)
    (h : dequeuedPath st inp = some p) (hex : inp.existing.contains p = true) :
    (iterBody st inp).2 =
      (scanStep st inp).2 ++
        (Action.play p ::
          (List.replicate (runDelete inp.del_results).attempts (Action.deleteAttempt p) ++
            if (runDelete inp.del_results).deleted then [Action.deleted p] else [])) := by
  unfold dequeuedPath at h
  by_cases he : st.enabled = true
  · rw [he] at h
    simp only [Bool.not_true, Bool.false_eq_true, if_false] at h
    simp only [iterBody, he, Bool.not_true, Bool.false_eq_true, if_false]
    rw [abortResetStep_play_queue]
    cases hq : (scanStep st inp).1.play_queue with
    | nil =>
      rw [hq] at h
      simp at h
    | cons q rest =>
      have hqp : q = p := by
        rw [hq] at h
        simpa using h
      subst hqp
      simp only [hex, if_true]
      rw [playDeleteStep_actions]
  · simp only [Bool.not_eq_true] at he
    rw [he] at h
    simp at h

theorem iterBody_queue_noscan (st : PlayerState) (inp : IterInput) (h : inp.do_scan = false) :
    (iterBody st inp).1.play_queue = st.play_queue ∨
      (iterBody st inp).1.play_queue = st.play_queue.tail := by
  have hsc := scanStep_noscan st inp h
  simp only [iterBody, hsc]
  split
  · left; rfl
  · rw [abortResetStep_play_queue]
    cases hq : st.play_queue with
    | nil =>
      left
      rw [abortResetStep_play_queue, hq]
    | cons q rest =>
      right
      by_cases hex : inp.existing.contains q = true
      · simp only [hex, if_true, playDeleteStep_play_queue]
        rfl
      · simp only [hex, if_false]
        rfl

/-! ### Lemmas lifted to `runIteration` and `runLoop` -/

theorem runIteration_paused (st : PlayerState) (inp : IterInput) :
    (runIteration st inp).1.paused = st.paused := by
  rw [runIteration_fst]
  cases hsr : inp.stop_requested
  · simp [iterBody_paused]
  · simp [iterBody_paused]

theorem runIteration_terminate_or (st : PlayerState) (inp : IterInput) :
    (runIteration st inp).1.terminate = (st.terminate || inp.stop_requested) := by
  rw [runIteration_fst]
  cases hsr : inp.stop_requested
  · simp [iterBody_terminate_eq]
  · simp

theorem runIteration_current_none (st : PlayerState) (inp : IterInput)
    (h : st.currently_playing = none) : (runIteration st inp).1.currently_playing = none := by
  rw [runIteration_fst]
  cases hsr : inp.stop_requested
  · simp [iterBody_current_none st inp h]
  · simp [iterBody_current_none st inp h]

theorem runIteration_abort_false (st : PlayerState) (inp : IterInput)
    (he : st.enabled = true) (hs : st.is_speaking = false) :
    (runIteration st inp).1.abort_flag = false := by
  rw [runIteration_fst]
  cases hsr : inp.stop_requested
  · simp [iterBody_abort_false st inp he hs]
  · simp [iterBody_abort_false st inp he hs]

theorem runIteration_dequeued_not_mem (st : PlayerState) (inp : IterInput) (p : String)
    (h : dequeuedPath st inp = some p) : p ∉ (runIteration st inp).1.queued_files := by
  rw [runIteration_fst]
  cases hsr : inp.stop_requested
  · simpa using iterBody_dequeued_not_mem st inp p h
  · simpa using iterBody_dequeued_not_mem st inp p h

theorem runLoop_terminated (st : PlayerState) (l : List IterInput)
    (h : st.terminate = true) : runLoop st l = (st, []) := by
  cases l with
  | nil => rfl
  | cons a r => simp only [runLoop, h, if_true]

theorem runLoop_length (l : List IterInput) : ∀ st : PlayerState, st.terminate = false →
    (∀ inp ∈ l, inp.stop_requested = false) → (runLoop st l).2.length = l.length := by
  induction l with
  | nil =>
    intro st _ _
    rfl
  | cons a r ih =>
    intro st hterm hall
    have ha : a.stop_requested = false := hall a (List.mem_cons_self a r)
    have hterm2 : (runIteration st a).1.terminate = false := by
      simp [runIteration_terminate_or, hterm, ha]
    have hall2 : ∀ inp ∈ r, inp.stop_requested = false :=
      fun inp hi => hall inp (List.mem_cons_of_mem a hi)
    simp only [runLoop, hterm]
    simp only [Bool.false_eq_true, if_false, List.length_cons]
    rw [ih _ hterm2 hall2]

theorem runLoop_current_none (l : List IterInput) : ∀ st : PlayerState,
    st.currently_playing = none → (runLoop st l).1.currently_playing = none := by
  induction l with
  | nil =>
    intro st h
    exact h
  | cons a r ih =>
    intro st h
    by_cases hterm : st.terminate = true
    · rw [runLoop_terminated st (a :: r) hterm]
      exact h
    · simp only [Bool.not_eq_true] at hterm
      simp only [runLoop, hterm, Bool.false_eq_true, if_false]
      exact ih _ (runIteration_current_none st a h)

/-! ### Lemmas about the deletion retry loop -/

theorem delete_go_attempts_le (res : List DelResult) :
    ∀ rem attempt, (delete_go res attempt rem).attempts ≤ rem := by
  intro rem
  induction rem with
  | zero =>
    intro attempt
    simp [delete_go]
  | succ n ih =>
    intro attempt
    simp only [delete_go]
    split
    · show 1 ≤ n + 1
      omega
    · split
      · show (delete_go res (attempt + 1) n).attempts + 1 ≤ n + 1
        have := ih (attempt + 1)
        omega
      · show 1 ≤ n + 1
        omega
    · show 1 ≤ n + 1
      omega

theorem runDelete_attempts_le (res : List DelResult) : (runDelete res).attempts ≤ 3 :=
  delete_go_attempts_le res 3 0

theorem runDelete_attempts_pos (res : List DelResult) : 1 ≤ (runDelete res).attempts := by
  unfold runDelete
  simp only [delete_go]
  split
  · show 1 ≤ 1
    omega
  · split
    · show 1 ≤ (delete_go res (0 + 1) 2).attempts + 1
      omega
    · show 1 ≤ 1
      omega
  · show 1 ≤ 1
    omega

theorem runDelete_all_perm (res : List DelResult)
    (h0 : res.getD 0 .ok = DelResult.permErr) (h1 : res.getD 1 .ok = DelResult.permErr)
    (h2 : res.getD 2 .ok = DelResult.permErr) :
    runDelete res = { deleted := false, attempts := 3, sleeps := [1, 5, 1, 5, 1] } := by
  rw [List.getD_eq_getElem?_getD] at h0 h1 h2
  unfold runDelete
  norm_num [delete_go, h0, h1, h2]

theorem runDelete_attempts_first (res : List DelResult)
    (h0 : res.getD 0 .ok ≠ DelResult.permErr) : (runDelete res).attempts = 1 := by
  unfold runDelete
  cases h : res.getD 0 .ok
  · rw [List.getD_eq_getElem?_getD] at h
    norm_num [delete_go, h]
  · exact absurd h h0
  · rw [List.getD_eq_getElem?_getD] at h
    norm_num [delete_go, h]

theorem runDelete_attempts_second (res : List DelResult)
    (h0 : res.getD 0 .ok = DelResult.permErr)
    (h1 : res.getD 1 .ok ≠ DelResult.permErr) : (runDelete res).attempts = 2 := by
  unfold runDelete
  cases h : res.getD 1 .ok
  · rw [List.getD_eq_getElem?_getD] at h0 h
    norm_num [delete_go, h0, h]
  · exact absurd h h1
  · rw [List.getD_eq_getElem?_getD] at h0 h
    norm_num [delete_go, h0, h]

theorem runDelete_retry_implies_perm (res : List DelResult) :
    ∀ i, i + 1 < (runDelete res).attempts → res.getD i .ok = DelResult.permErr := by
  intro i hi
  have hle := runDelete_attempts_le res
  have hi3 : i + 1 < 3 := Nat.lt_of_lt_of_le hi hle
  have hi2 : i < 2 := by omega
  interval_cases i
  · by_contra hne
    rw [runDelete_attempts_first res hne] at hi
    omega
  · by_contra hne
    by_cases h0 : res.getD 0 .ok = DelResult.permErr
    · rw [runDelete_attempts_second res h0 hne] at hi
      omega
    · rw [runDelete_attempts_first res h0] at hi
      omega

theorem runDelete_other_halts (res : List DelResult) (k : Nat) (hk : k < 3)
    (hperm : ∀ i, i < k → res.getD i .ok = DelResult.permErr)
    (hother : res.getD k .ok = DelResult.otherErr) :
    (runDelete res).attempts = k + 1 ∧ (runDelete res).deleted = false := by
  interval_cases k
  · rw [List.getD_eq_getElem?_getD] at hother
    unfold runDelete
    norm_num [delete_go, hother]
  · have h0 := hperm 0 (by omega)
    rw [List.getD_eq_getElem?_getD] at h0 hother
    unfold runDelete
    norm_num [delete_go, h0, hother]
  · have h0 := hperm 0 (by omega)
    have h1 := hperm 1 (by omega)
    rw [List.getD_eq_getElem?_getD] at h0 h1 hother
    unfold runDelete
    norm_num [delete_go, h0, h1, hother]

/-! ### Lemmas about the control surface -/

theorem play_audio_play_queue_of_mem (st : PlayerState) (exi : List String) (p : String)
    (h : exi.contains (resolvePath st p) = true) :
    (play_audio st exi p).play_queue = st.play_queue ++ [resolvePath st p] := by
  unfold play_audio
  simp only [h, if_true]

theorem play_audio_queued_files (st : PlayerState) (exi : List String) (p : String) :
    (play_audio st exi p).queued_files = st.queued_files := by
  simp only [play_audio]
  split <;> rfl

theorem play_audio_audio_dir (st : PlayerState) (exi : List String) (p : String) :
    (play_audio st exi p).audio_dir = st.audio_dir := by
  simp only [play_audio]
  split <;> rfl

theorem resolvePath_congr (st1 st2 : PlayerState) (p : String)
    (h : st1.audio_dir = st2.audio_dir) : resolvePath st1 p = resolvePath st2 p := by
  unfold resolvePath joinPath
  rw [h]

theorem scan_not_queued (st : PlayerState) (dl : List String) (q : String)
    (h : q ∈ scan_for_new_audio_files st dl) : st.queued_files.contains q = false := by
  unfold scan_for_new_audio_files at h
  have h2 := (List.mem_filter.mp h).2
  simp only [Bool.and_eq_true, Bool.not_eq_true'] at h2
  exact h2.1

theorem iterBody_play_current_none (st : PlayerState) (inp : IterInput) (p : String)
    (h : dequeuedPath st inp = some p) (hex : inp.existing.contains p = true) :
    (iterBody st inp).1.currently_playing = none := by
  unfold dequeuedPath at h
  by_cases he : st.enabled = true
  · rw [he] at h
    simp only [Bool.not_true, Bool.false_eq_true, if_false] at h
    simp only [iterBody, he, Bool.not_true, Bool.false_eq_true, if_false]
    rw [abortResetStep_play_queue]
    cases hq : (scanStep st inp).1.play_queue with
    | nil =>
      rw [hq] at h
      simp at h
    | cons q rest =>
      have hqp : q = p := by
        rw [hq] at h
        simpa using h
      subst hqp
      simp only [hex, if_true, playDeleteStep_currently_playing]
  · simp only [Bool.not_eq_true] at he
    rw [he] at h
    simp at h

theorem runIteration_queue_noscan (st : PlayerState) (inp : IterInput)
    (h : inp.do_scan = false) :
    (runIteration st inp).1.play_queue = st.play_queue ∨
      (runIteration st inp).1.play_queue = st.play_queue.tail := by
  rw [runIteration_fst]
  cases hsr : inp.stop_requested
  · simpa using iterBody_queue_noscan st inp h
  · simpa using iterBody_queue_noscan st inp h

/-! ### Concrete states and inputs used by counterexamples and witnesses -/

/-- A sink environment in which every resource acquisition succeeds and the
chunk loop sees the given observations. -/
def allOkSink (obs : List (Bool × Bool)) : SinkEnv :=
  { open_file_ok := true, device_init_ok := true, open_stream_ok := true, chunk_obs := obs }

/-- An iteration input with no scan, no files on disk, and no events. -/
def quietInput : IterInput :=
  { do_scan := false, dir_list := [], existing := [], sink_env := allOkSink [],
    del_results := [], stop_requested := false }

/-- An iteration input whose only event is a concurrent `stop()` call. -/
def stopInput : IterInput :=
  { quietInput with stop_requested := true }

/-- A player about to play `audio/a.wav`, which is registered in
`queued_files`. -/
def abortState : PlayerState :=
  { initState true "audio" with
      play_queue := ["audio/a.wav"], queued_files := ["audio/a.wav"] }

/-- An input whose playback session observes the abort flag at the first
chunk, and whose deletion succeeds on the first attempt. -/
def abortInput : IterInput :=
  { do_scan := false, dir_list := [], existing := ["audio/a.wav"],
    sink_env := allOkSink [(true, true)], del_results := [DelResult.ok],
    stop_requested := false }

/-- A player whose queue holds the entry `"all"`, the natural encoding of a
"play all" sentinel, while `a.wav` and `b.wav` are known clips. -/
def sentinelState : PlayerState :=
  { initState true "audio" with play_queue := ["all"] }

/-- An input for `sentinelState`: known clips in the directory, but no file
named `all` exists. -/
def sentinelInput : IterInput :=
  { do_scan := false, dir_list := ["a.wav", "b.wav"], existing := [],
    sink_env := allOkSink [], del_results := [], stop_requested := false }

/-- The one existing file used by the double-enqueue scenario. -/
def doubleEnqueueExisting : List String := ["audio/a.wav"]

/-- The player after `api.play_audio("a.wav")` has been called twice before
any dequeue. -/
def doubleEnqueueState : PlayerState :=
  play_audio (play_audio (initState true "audio") doubleEnqueueExisting "a.wav")
    doubleEnqueueExisting "a.wav"

/-- An input where `audio/a.wav` still exists and its deletion fails with a
non-`PermissionError` exception, so the file stays on disk. -/
def doubleEnqueueInput : IterInput :=
  { do_scan := false, dir_list := [], existing := doubleEnqueueExisting,
    sink_env := allOkSink [], del_results := [DelResult.otherErr],
    stop_requested := false }

/-- An idle player on which `api.pause_audio()` was called while nothing was
playing. -/
def pausedIdleState : PlayerState :=
  { initState true "audio" with paused := true }

/-! ### Claim C1 -/

/-- C1 counterexample: a playback session that ends by abort returns normally
(`_play_audio_blocking` swallows the break), after which `run` still attempts
to delete the clip file — the claim that no delete is attempted on abort is
false at this input. -/
theorem c1_counterexample :
    (play_audio_blocking abortInput.sink_env).outcome = SinkOutcome.aborted ∧
    Action.deleteAttempt "audio/a.wav" ∈ (runIteration abortState abortInput).2 := by
  constructor
  · decide
  · decide

/-- C1 (amended): for every clip whose playback session ends by abort or by a
playback error, the Loop still runs the deletion step for that clip's file
(at least one delete attempt is made), because `_play_audio_blocking`
catches every exception and returns normally; the path is removed from
`queued` and `current` is cleared as the claim states. -/
theorem c1_abort_error_still_deletes :
    ∀ (st : PlayerState) (inp : IterInput) (p : String),
      dequeuedPath st inp = some p →
      inp.existing.contains p = true →
      ((play_audio_blocking inp.sink_env).outcome = SinkOutcome.aborted ∨
        (play_audio_blocking inp.sink_env).outcome = SinkOutcome.errored) →
      Action.deleteAttempt p ∈ (runIteration st inp).2 ∧
      p ∉ (runIteration st inp).1.queued_files ∧
      (runIteration st inp).1.currently_playing = none := by
  intro st inp p h hex _
  refine ⟨?_, runIteration_dequeued_not_mem st inp p h, ?_⟩
  · rw [runIteration_snd, iterBody_actions_play st inp p h hex]
    have hpos := runDelete_attempts_pos inp.del_results
    apply List.mem_append_right
    apply List.mem_cons_of_mem
    apply List.mem_append_left
    rw [List.mem_replicate]
    exact ⟨by omega, rfl⟩
  · rw [runIteration_fst]
    cases hsr : inp.stop_requested
    · simpa using iterBody_play_current_none st inp p h hex
    · simpa using iterBody_play_current_none st inp p h hex

/-- C1 witness: the amended claim evaluated on the aborted session of
`abortState`. -/
theorem c1_witness :
    dequeuedPath abortState abortInput = some "audio/a.wav" ∧
    abortInput.existing.contains "audio/a.wav" = true ∧
    (Action.deleteAttempt "audio/a.wav" ∈ (runIteration abortState abortInput).2 ∧
      "audio/a.wav" ∉ (runIteration abortState abortInput).1.queued_files ∧
      (runIteration abortState abortInput).1.currently_playing = none) :=
  ⟨by decide, by decide,
    c1_abort_error_still_deletes abortState abortInput "audio/a.wav" (by decide) (by decide)
      (Or.inl (by decide))⟩

/-! ### Claim C2 -/

/-- C2 counterexample: dequeuing the entry `"all"` — the natural encoding of a
"play all" sentinel — performs no expansion: no path is enqueued and the
entry is simply dropped as a missing file, so the claimed sentinel handling
does not exist at this input. -/
theorem c2_counterexample :
    (runIteration sentinelState sentinelInput).1.play_queue = [] ∧
    (runIteration sentinelState sentinelInput).2 = [Action.dropMissing "all"] := by
  constructor
  · decide
  · decide

/-- C2 (amended): there is no `enqueueAll()` operation and no sentinel: every
Control Surface call (`get_audio_list`, `play_audio`, `pause_audio`,
`resume_audio`, `stop_playing`) appends at most one concrete path to the
queue, and a Loop iteration that does not scan never lengthens the queue —
a dequeued entry is played or dropped, never expanded into further
enqueues. -/
theorem c2_no_sentinel :
    (∀ (st : PlayerState) (inp : IterInput), inp.do_scan = false →
        (runIteration st inp).1.play_queue = st.play_queue ∨
        (runIteration st inp).1.play_queue = st.play_queue.tail) ∧
    (∀ (st : PlayerState) (exi : List String) (c : APICall),
        ∃ l : List String, (apiStep st exi c).play_queue = st.play_queue ++ l ∧
          l.length ≤ 1) := by
  constructor
  · exact runIteration_queue_noscan
  · intro st exi c
    cases c with
    | getAudioList => exact ⟨[], by simp [apiStep], by simp⟩
    | playAudio q =>
      by_cases h : exi.contains (resolvePath st q) = true
      · exact ⟨[resolvePath st q], by rw [apiStep, play_audio_play_queue_of_mem st exi q h],
          by simp⟩
      · refine ⟨[], ?_, by simp⟩
        show (play_audio st exi q).play_queue = st.play_queue ++ []
        simp only [play_audio]
        rw [if_neg h]
        simp
    | pauseAudio => exact ⟨[], by simp [apiStep, pause_audio], by simp⟩
    | resumeAudio => exact ⟨[], by simp [apiStep, resume_audio], by simp⟩
    | stopPlaying => exact ⟨[], by simp [apiStep, stop_playing], by simp⟩

/-- C2 witness: the amended claim evaluated at the `"all"` entry of
`sentinelState`. -/
theorem c2_witness :
    sentinelInput.do_scan = false ∧
    ((runIteration sentinelState sentinelInput).1.play_queue = sentinelState.play_queue ∨
      (runIteration sentinelState sentinelInput).1.play_queue =
        sentinelState.play_queue.tail) :=
  ⟨by decide, c2_no_sentinel.1 sentinelState sentinelInput (by decide)⟩

/-! ### Claim C3 -/

/-- C3 counterexample: `api.play_audio` checks only file existence, not the
Clip Registry, so calling it twice with `a.wav` puts two entries on the
queue, and when deletion fails (file still on disk) the clip is played
twice — both the claimed registry check and the claimed at-most-once
playback fail at this input. -/
theorem c3_counterexample :
    doubleEnqueueState.play_queue = ["audio/a.wav", "audio/a.wav"] ∧
    (runLoop doubleEnqueueState [doubleEnqueueInput, doubleEnqueueInput]).2 =
      [[Action.play "audio/a.wav", Action.deleteAttempt "audio/a.wav"],
        [Action.play "audio/a.wav", Action.deleteAttempt "audio/a.wav"]] := by
  constructor
  · decide
  · decide

/-- C3 (amended): the Control Surface's enqueue operation performs no Clip
Registry check — a second `enqueue(p)` before `p` is dequeued appends a
second queue entry, so the clip can play twice; only the Watcher's scan
path checks the Registry (every path it returns is absent from
`queued_files`). -/
theorem c3_enqueue_not_deduped :
    (∀ (st : PlayerState) (exi : List String) (p : String),
        exi.contains (resolvePath st p) = true →
        (play_audio (play_audio st exi p) exi p).play_queue =
          st.play_queue ++ [resolvePath st p, resolvePath st p]) ∧
    (∀ (st : PlayerState) (dl : List String) (q : String),
        q ∈ scan_for_new_audio_files st dl → st.queued_files.contains q = false) := by
  constructor
  · intro st exi p h
    have hd := play_audio_audio_dir st exi p
    have hr : resolvePath (play_audio st exi p) p = resolvePath st p :=
      resolvePath_congr _ _ p hd
    have h2 : exi.contains (resolvePath (play_audio st exi p) p) = true := by
      rw [hr]
      exact h
    rw [play_audio_play_queue_of_mem _ exi p h2, hr,
      play_audio_play_queue_of_mem st exi p h, List.append_assoc]
    simp
  · exact scan_not_queued

/-- C3 witness: the amended claim evaluated on the double enqueue of
`a.wav`. -/
theorem c3_witness :
    doubleEnqueueExisting.contains (resolvePath (initState true "audio") "a.wav") = true ∧
    (play_audio (play_audio (initState true "audio") doubleEnqueueExisting "a.wav")
        doubleEnqueueExisting "a.wav").play_queue =
      (initState true "audio").play_queue ++
        [resolvePath (initState true "audio") "a.wav",
          resolvePath (initState true "audio") "a.wav"] :=
  ⟨by decide,
    c3_enqueue_not_deduped.1 (initState true "audio") doubleEnqueueExisting "a.wav" (by decide)⟩

/-! ### Claim C4 -/

/-- C4: after any Playback Loop iteration starting from the initial state,
`current` is `none` (a dequeued clip is always completed and cleared within
its own iteration), so `queued` never contains a path equal to `current`;
and a path that is dequeued in an iteration is absent from `queued` after
that iteration, whether it was played or confirmed missing. -/
theorem c4_registry_consistency :
    (∀ (e : Bool) (d : String) (inps : List IterInput),
        (runLoop (initState e d) inps).1.currently_playing = none) ∧
    (∀ (e : Bool) (d : String) (inps : List IterInput) (p : String),
        ((runLoop (initState e d) inps).1.queued_files.contains p &&
          ((runLoop (initState e d) inps).1.currently_playing == some p)) = false) ∧
    (∀ (st : PlayerState) (inp : IterInput) (p : String),
        dequeuedPath st inp = some p → p ∉ (runIteration st inp).1.queued_files) := by
  refine ⟨?_, ?_, ?_⟩
  · intro e d inps
    exact runLoop_current_none inps (initState e d) rfl
  · intro e d inps p
    rw [runLoop_current_none inps (initState e d) rfl]
    simp
  · intro st inp p h
    exact runIteration_dequeued_not_mem st inp p h

/-- C4 witness: the dequeue-removal part evaluated on `abortState`. -/
theorem c4_witness :
    dequeuedPath abortState abortInput = some "audio/a.wav" ∧
    "audio/a.wav" ∉ (runIteration abortState abortInput).1.queued_files :=
  ⟨by decide, c4_registry_consistency.2.2 abortState abortInput "audio/a.wav" (by decide)⟩

/-! ### Claim C5 -/

/-- C5 counterexample: `pausedIdleState` has `paused = true` with nothing
playing and no command pending, and the iteration leaves `paused = true` —
the loop never resets `paused`, so the claimed `paused := false` reset does
not happen at this input. -/
theorem c5_counterexample :
    pausedIdleState.paused = true ∧
    pausedIdleState.play_queue = [] ∧
    (runIteration pausedIdleState quietInput).1.paused = true := by
  refine ⟨rfl, rfl, ?_⟩
  decide

/-- C5 (amended): the flag reset at the top of every loop iteration applies to
`abort_flag` (reset to false whenever no clip is speaking), not to `paused`:
`paused` is never modified by an iteration, so a pause requested while no
clip is playing does carry over into the next clip's playback. -/
theorem c5_flag_reset :
    (∀ (st : PlayerState) (inp : IterInput), (runIteration st inp).1.paused = st.paused) ∧
    (∀ (st : PlayerState) (inp : IterInput), st.enabled = true → st.is_speaking = false →
        (runIteration st inp).1.abort_flag = false) :=
  ⟨runIteration_paused, runIteration_abort_false⟩

/-- C5 witness: the abort-flag reset evaluated on the initial state. -/
theorem c5_witness :
    (initState true "audio").enabled = true ∧
    (initState true "audio").is_speaking = false ∧
    (runIteration (initState true "audio") quietInput).1.abort_flag = false :=
  ⟨rfl, rfl, c5_flag_reset.2 (initState true "audio") quietInput rfl rfl⟩

/-! ### Claim C6 -/

/-- C6 counterexample: when all three deletion attempts fail with
`PermissionError`, the recorded sleeps are `[1, 5, 1, 5, 1]` (tenths of a
second): the wait following the second failure (`getD 3`) is not longer
than the wait following the first failure (`getD 1`) — both are 0.5 s —
so the delays are not progressively longer as claimed. -/
theorem c6_counterexample :
    (runDelete [DelResult.permErr, DelResult.permErr, DelResult.permErr]).sleeps =
      [1, 5, 1, 5, 1] ∧
    ¬((runDelete [DelResult.permErr, DelResult.permErr, DelResult.permErr]).sleeps.getD 1 0 <
        (runDelete [DelResult.permErr, DelResult.permErr, DelResult.permErr]).sleeps.getD 3 0) := by
  constructor
  · decide
  · decide

/-- C6 (amended): deletion is retried up to a total of 3 attempts, with a
fixed 0.1 s delay before each attempt and a fixed 0.5 s wait after each of
the first two failures (equal gaps, not progressively longer); when every
attempt fails with `PermissionError` the loop makes exactly 3 attempts and
gives up, and in every case the dequeued path is removed from the `queued`
set. -/
theorem c6_deletion_retry :
    (∀ res : List DelResult, (runDelete res).attempts ≤ 3) ∧
    (∀ res : List DelResult,
        res.getD 0 .ok = DelResult.permErr → res.getD 1 .ok = DelResult.permErr →
        res.getD 2 .ok = DelResult.permErr →
        runDelete res = { deleted := false, attempts := 3, sleeps := [1, 5, 1, 5, 1] }) ∧
    (∀ (st : PlayerState) (inp : IterInput) (p : String),
        dequeuedPath st inp = some p → p ∉ (runIteration st inp).1.queued_files) := by
  refine ⟨runDelete_attempts_le, ?_, ?_⟩
  · intro res h0 h1 h2
    exact runDelete_all_perm res h0 h1 h2
  · intro st inp p h
    exact runIteration_dequeued_not_mem st inp p h

/-- C6 witness: the all-failures bound evaluated on three
`PermissionError` results. -/
theorem c6_witness :
    ([DelResult.permErr, DelResult.permErr, DelResult.permErr].getD 0 .ok =
        DelResult.permErr) ∧
    runDelete [DelResult.permErr, DelResult.permErr, DelResult.permErr] =
      { deleted := false, attempts := 3, sleeps := [1, 5, 1, 5, 1] } :=
  ⟨by decide,
    c6_deletion_retry.2.1 [DelResult.permErr, DelResult.permErr, DelResult.permErr]
      (by decide) (by decide) (by decide)⟩

/-! ### Claim C7 -/

/-- C7: on every exit path of a playback session — completion, abort, or an
error during `wave.open`, `pyaudio.PyAudio()`, `p.open` or streaming — the
`finally` block releases the resources in the order output stream, device
handle, input file: the cleanup trace is always a subsequence of
`[closeStream, terminateDevice, closeFile]`, and every resource that was
actually acquired is released.  `play_audio_blocking` is a total function
(the Python method catches every exception), so no exception propagates to
the Loop. -/
theorem c7_cleanup_order :
    ∀ env : SinkEnv,
      List.Sublist (play_audio_blocking env).cleanup
        [CleanupAct.closeStream, CleanupAct.terminateDevice, CleanupAct.closeFile] ∧
      (env.open_file_ok = true →
        CleanupAct.closeFile ∈ (play_audio_blocking env).cleanup) ∧
      (env.open_file_ok = true → env.device_init_ok = true →
        CleanupAct.terminateDevice ∈ (play_audio_blocking env).cleanup) ∧
      (env.open_file_ok = true → env.device_init_ok = true → env.open_stream_ok = true →
        CleanupAct.closeStream ∈ (play_audio_blocking env).cleanup) := by
  intro env
  obtain ⟨f, d, s, obs⟩ := env
  cases f <;> cases d <;> cases s <;> refine ⟨?_, ?_, ?_, ?_⟩ <;>
    simp [play_audio_blocking]

/-- C7 witness: the coverage part evaluated on a fully successful session. -/
theorem c7_witness :
    (allOkSink []).open_file_ok = true ∧
    CleanupAct.closeFile ∈ (play_audio_blocking (allOkSink [])).cleanup :=
  ⟨rfl, (c7_cleanup_order (allOkSink [])).2.1 rfl⟩

/-! ### Claim C8 -/

/-- C8: `stop()` sets the terminating flag, an iteration terminates exactly
when the flag was already set or a `stop()` arrived during it, a loop run
whose inputs contain no `stop()` executes one iteration per input no matter
what errors the inputs carry (no error exits the loop), and when `stop()`
arrives during an iteration that iteration runs to completion — its full
action trace is retained — and the loop exits before the next one. -/
theorem c8_stop_only_exit :
    (∀ st : PlayerState, (stop st).terminate = true) ∧
    (∀ (st : PlayerState) (inp : IterInput),
        (runIteration st inp).1.terminate = (st.terminate || inp.stop_requested)) ∧
    (∀ (st : PlayerState) (inps : List IterInput), st.terminate = false →
        (∀ inp ∈ inps, inp.stop_requested = false) →
        (runLoop st inps).2.length = inps.length) ∧
    (∀ (st : PlayerState) (inp : IterInput) (rest : List IterInput),
        st.terminate = false → inp.stop_requested = true →
        runLoop st (inp :: rest) =
          ((runIteration st inp).1, [(runIteration st inp).2])) := by
  refine ⟨fun st => rfl, runIteration_terminate_or, ?_, ?_⟩
  · intro st inps h hall
    exact runLoop_length inps st h hall
  · intro st inp rest hterm hstop
    have ht : (runIteration st inp).1.terminate = true := by
      rw [runIteration_terminate_or, hstop]
      simp
    simp only [runLoop, hterm, Bool.false_eq_true, if_false]
    rw [runLoop_terminated _ rest ht]

/-- C8 witness: a `stop()` arriving in the first iteration ends the loop after
that iteration. -/
theorem c8_witness :
    (initState true "audio").terminate = false ∧
    stopInput.stop_requested = true ∧
    runLoop (initState true "audio") [stopInput, quietInput] =
      ((runIteration (initState true "audio") stopInput).1,
        [(runIteration (initState true "audio") stopInput).2]) :=
  ⟨rfl, rfl,
    c8_stop_only_exit.2.2.2 (initState true "audio") stopInput [quietInput] rfl rfl⟩

/-! ### Claim C9 -/

/-- C9: `API.play_audio` on an existing file appends exactly one entry to the
play queue and leaves `queued_files` unchanged; indeed no Control Surface
call ever modifies `queued_files`, so only the Watcher's scan path adds
paths to the Registry. -/
theorem c9_play_audio_frame :
    ∀ (st : PlayerState) (exi : List String) (p : String),
      exi.contains (resolvePath st p) = true →
      (play_audio st exi p).play_queue = st.play_queue ++ [resolvePath st p] ∧
      (play_audio st exi p).queued_files = st.queued_files ∧
      (∀ c : APICall, (apiStep st exi c).queued_files = st.queued_files) := by
  intro st exi p h
  refine ⟨play_audio_play_queue_of_mem st exi p h, play_audio_queued_files st exi p, ?_⟩
  intro c
  cases c with
  | getAudioList => rfl
  | playAudio q => exact play_audio_queued_files st exi q
  | pauseAudio => rfl
  | resumeAudio => rfl
  | stopPlaying => rfl

/-- C9 witness: the frame condition evaluated on enqueuing `a.wav`. -/
theorem c9_witness :
    (["audio/a.wav"] : List String).contains (resolvePath (initState true "audio") "a.wav") =
      true ∧
    (play_audio (initState true "audio") ["audio/a.wav"] "a.wav").queued_files =
      (initState true "audio").queued_files :=
  ⟨by decide,
    (c9_play_audio_frame (initState true "audio") ["audio/a.wav"] "a.wav" (by decide)).2.1⟩

/-! ### Claim C10 -/

/-- C10: in the deletion retry loop, a non-`PermissionError` exception at
attempt `k` (after `k` `PermissionError` failures) ends the loop
immediately with exactly `k + 1` attempts and no deletion; conversely,
every attempt that is followed by a retry failed with `PermissionError`;
and the dequeued path is removed from the `queued` set after the loop in
every case. -/
theorem c10_other_error_halts :
    (∀ (res : List DelResult) (k : Nat), k < 3 →
        (∀ i, i < k → res.getD i .ok = DelResult.permErr) →
        res.getD k .ok = DelResult.otherErr →
        (runDelete res).attempts = k + 1 ∧ (runDelete res).deleted = false) ∧
    (∀ res : List DelResult, ∀ i, i + 1 < (runDelete res).attempts →
        res.getD i .ok = DelResult.permErr) ∧
    (∀ (st : PlayerState) (inp : IterInput) (p : String),
        dequeuedPath st inp = some p → p ∉ (runIteration st inp).1.queued_files) := by
  refine ⟨?_, runDelete_retry_implies_perm, ?_⟩
  · intro res k hk hperm hother
    exact runDelete_other_halts res k hk hperm hother
  · intro st inp p h
    exact runIteration_dequeued_not_mem st inp p h

/-- C10 witness: a non-`PermissionError` failure on the first attempt stops
the retry loop after one attempt. -/
theorem c10_witness :
    (0 : Nat) < 3 ∧
    ([DelResult.otherErr].getD 0 .ok = DelResult.otherErr) ∧
    ((runDelete [DelResult.otherErr]).attempts = 0 + 1 ∧
      (runDelete [DelResult.otherErr]).deleted = false) :=
  ⟨by omega, by decide,
    c10_other_error_halts.1 [DelResult.otherErr] 0 (by omega)
      (fun i hi => absurd hi (by omega)) (by decide)⟩

end AudioPlayer
